import Mathlib

/-
Verification development for the ligue1_team_travel_emissions repository.

The Python sources are shallowly embedded: pure computations become Lean
functions over ℚ (Python floats are modelled by exact rationals), pandas
row filtering becomes List.filter over record lists, and fallible code
(pandas .iloc[0] on an empty frame raises IndexError) is modelled by
Option, with none standing for the raised exception.
-/

namespace Scripts

/-- One row of a per-mode emissions CSV
(flight_emissions.csv / train_emissions.csv / car_emissions.csv),
as read by src/scripts/Calculate_emissions.py and src/Calculate_emissions.py:
columns departure, arrival, emissions_kg_co2, travel_time_seconds, distance_km. -/
structure EmissionRow where
  departure : String
  arrival : String
  emissions_kg_co2 : ℚ
  travel_time_seconds : ℚ
  distance_km : ℚ
deriving DecidableEq

/-- The three module-level per-mode dataframes
(emission_plane_data, emission_train_data, emission_car_data). -/
structure EmissionStore where
  plane : List EmissionRow
  train : List EmissionRow
  car : List EmissionRow
deriving DecidableEq

/-- The `match transport_type` dispatch at the top of get_emissions_and_time:
"avion" selects the plane data, "bus" the car data, "train" the train data;
any other token falls through to the zero-sentinel return (modelled by none
here; the caller then returns the zero tuple). -/
def datasetFor (store : EmissionStore) (transport_type : String) :
    Option (List EmissionRow) :=
  match transport_type with
  | "avion" => some store.plane
  | "bus" => some store.car
  | "train" => some store.train
  | _ => none

/-- The subset dataset[(dataset["departure"] == dep) & (dataset["arrival"] == arr)] :
the subset of rows matching the given direction, in dataframe order. -/
def matching (dataset : List EmissionRow) (dep arr : String) : List EmissionRow :=
  dataset.filter fun r => r.departure = dep && r.arrival = arr

/-- get_emissions_and_time from src/scripts/Calculate_emissions.py (lines 25-60).
Unknown transport tokens return (0.0, 0.0).  For a known token the direct
direction is tried first; if that subset is empty the reversed direction is
used.  subset2["emissions_kg_co2"].iloc[0] on an empty subset2 raises
IndexError, modelled by none. -/
def get_emissions_and_time (store : EmissionStore)
    (visiting_team_name hosting_team_name transport_type : String) :
    Option (ℚ × ℚ) :=
  match datasetFor store transport_type with
  | none => some (0.0, 0.0)
  | some dataset =>
    match matching dataset visiting_team_name hosting_team_name with
    | r :: _ => some (r.emissions_kg_co2, r.travel_time_seconds)
    | [] =>
      match matching dataset hosting_team_name visiting_team_name with
      | r2 :: _ => some (r2.emissions_kg_co2, r2.travel_time_seconds)
      | [] => none

/-- Body of the alternative loop of main in src/scripts/Calculate_emissions.py
(lines 93-120), for one row of reconstructed_data: returns the triple that is
appended to (list_alternative_emissions, list_alternative_emissions_wo_bus,
list_alternative_time).  none models a raised IndexError from a failed
lookup. -/
def alternative_step (store : EmissionStore) (visiting_team hosting_team : String) :
    Option (ℚ × ℚ × ℚ) :=
  if visiting_team ≠ hosting_team then
    match get_emissions_and_time store visiting_team hosting_team "train",
          get_emissions_and_time store visiting_team hosting_team "bus" with
    | some (emission_train, time_train), some (emission_bus, time_bus) =>
      if time_bus < time_train then
        some (emission_bus, emission_bus, time_bus)
      else
        some (emission_train + emission_bus, emission_train, time_train)
    | _, _ => none
  else
    some (0, 0, 0)

end Scripts

namespace Full

/-- get_emissions_and_time from src/Calculate_emissions.py (lines 26-64), the
extended variant that also returns distance_km.  Same structure as the
scripts variant: zero sentinel for unknown tokens only; for known tokens
an empty subset in both directions raises IndexError (none). -/
def get_emissions_and_time (store : Scripts.EmissionStore)
    (visiting_team_name hosting_team_name transport_type : String) :
    Option (ℚ × ℚ × ℚ) :=
  match Scripts.datasetFor store transport_type with
  | none => some (0.0, 0.0, 0.0)
  | some dataset =>
    match Scripts.matching dataset visiting_team_name hosting_team_name with
    | r :: _ => some (r.emissions_kg_co2, r.travel_time_seconds, r.distance_km)
    | [] =>
      match Scripts.matching dataset hosting_team_name visiting_team_name with
      | r2 :: _ => some (r2.emissions_kg_co2, r2.travel_time_seconds, r2.distance_km)
      | [] => none

end Full

/-- An emission store with empty per-mode tables: no route exists in either
direction for any pair. -/
def emptyStore : Scripts.EmissionStore := ⟨[], [], []⟩

/-- Claim C1 (counterexample).  For the known mode token "train" and a pair
with no row in either direction, both variants of get_emissions_and_time
fail (IndexError, modelled by none) instead of returning the zero-valued
sentinel the claim promises. -/
theorem c1_counterexample :
    Scripts.get_emissions_and_time emptyStore "Paris" "Lyon" "train" = none ∧
    Full.get_emissions_and_time emptyStore "Paris" "Lyon" "train" = none ∧
    Full.get_emissions_and_time emptyStore "Paris" "Lyon" "train" ≠
      some (0.0, 0.0, 0.0) := by
  refine ⟨rfl, rfl, ?_⟩
  decide

/-- Claim C1 (amended).  For every known mode token, when the mode's table
contains no row in either direction, get_emissions_and_time signals failure
(IndexError from .iloc[0] on the empty reverse subset, modelled by none) in
both the scripts variant and the extended variant; the zero-valued sentinel
is produced only by the unknown-token fallthrough. -/
theorem c1_missing_route_fails (store : Scripts.EmissionStore)
    (visiting hosting mode : String) (ds : List Scripts.EmissionRow)
    (hds : Scripts.datasetFor store mode = some ds)
    (hdir : Scripts.matching ds visiting hosting = [])
    (hrev : Scripts.matching ds hosting visiting = []) :
    Scripts.get_emissions_and_time store visiting hosting mode = none ∧
    Full.get_emissions_and_time store visiting hosting mode = none := by
  constructor
  · simp [Scripts.get_emissions_and_time, hds, hdir, hrev]
  · simp [Full.get_emissions_and_time, hds, hdir, hrev]

/-- Witness for c1_missing_route_fails at the empty store, pair
(Paris, Lyon), mode "train". -/
theorem c1_missing_route_fails_witness :
    Scripts.get_emissions_and_time emptyStore "Paris" "Lyon" "train" = none ∧
    Full.get_emissions_and_time emptyStore "Paris" "Lyon" "train" = none :=
  c1_missing_route_fails emptyStore "Paris" "Lyon" "train" [] rfl rfl rfl

/-- Claim C7 (confirmed).  Route resolution is direction-agnostic: for a
known mode whose table holds rows for exactly one of the two directions of
a pair (A, B), get_emissions_and_time returns the same emissions and travel
time for (A, B) and for (B, A). -/
theorem c7_direction_agnostic (store : Scripts.EmissionStore)
    (A B mode : String) (ds : List Scripts.EmissionRow)
    (hds : Scripts.datasetFor store mode = some ds)
    (hone : (Scripts.matching ds A B ≠ [] ∧ Scripts.matching ds B A = []) ∨
            (Scripts.matching ds A B = [] ∧ Scripts.matching ds B A ≠ [])) :
    Scripts.get_emissions_and_time store A B mode =
      Scripts.get_emissions_and_time store B A mode := by
  rcases hone with ⟨hAB, hBA⟩ | ⟨hAB, hBA⟩
  · obtain ⟨r, rs, hr⟩ := List.exists_cons_of_ne_nil hAB
    simp [Scripts.get_emissions_and_time, hds, hr, hBA]
  · obtain ⟨r, rs, hr⟩ := List.exists_cons_of_ne_nil hBA
    simp [Scripts.get_emissions_and_time, hds, hr, hAB]

/-- A store holding a single train row, stored in the (Paris, Lyon)
direction only. -/
def oneWayStore : Scripts.EmissionStore :=
  ⟨[], [⟨"Paris", "Lyon", 12, 7200, 400⟩], []⟩

/-- Witness for c7_direction_agnostic on oneWayStore: the single train row
is stored for (Paris, Lyon) only, and both lookup orders agree. -/
theorem c7_direction_agnostic_witness :
    Scripts.get_emissions_and_time oneWayStore "Paris" "Lyon" "train" =
      Scripts.get_emissions_and_time oneWayStore "Lyon" "Paris" "train" :=
  c7_direction_agnostic oneWayStore "Paris" "Lyon" "train"
    [⟨"Paris", "Lyon", 12, 7200, 400⟩] rfl
    (Or.inl ⟨by decide, by decide⟩)

/-- Claim C5 (confirmed).  The Alternative Selector of
src/scripts/Calculate_emissions.py chooses by durations: for visiting ≠
hosting, if the bus is strictly faster than the train, both emission fields
equal the bus emissions and the time is the bus time; otherwise emissions
are train + bus, the without-empty-leg emissions are the train emissions
alone, and the time is the train time.  For visiting = hosting all fields
are zero. -/
theorem c5_alternative_selector (store : Scripts.EmissionStore)
    (visiting hosting : String) (et tt eb tb : ℚ)
    (htrain : Scripts.get_emissions_and_time store visiting hosting "train" =
      some (et, tt))
    (hbus : Scripts.get_emissions_and_time store visiting hosting "bus" =
      some (eb, tb)) :
    (visiting = hosting →
      Scripts.alternative_step store visiting hosting = some (0, 0, 0)) ∧
    (visiting ≠ hosting →
      (tb < tt →
        Scripts.alternative_step store visiting hosting = some (eb, eb, tb)) ∧
      (tt ≤ tb →
        Scripts.alternative_step store visiting hosting =
          some (et + eb, et, tt))) := by
  constructor
  · intro heq
    simp [Scripts.alternative_step, heq]
  · intro hne
    constructor
    · intro hlt
      simp [Scripts.alternative_step, hne, htrain, hbus, hlt]
    · intro hle
      simp [Scripts.alternative_step, hne, htrain, hbus, not_lt.mpr hle]

/-- A store with one train row and one bus (car-table) row for the pair
(Paris, Lyon): train is faster than the bus. -/
def twoModeStore : Scripts.EmissionStore :=
  ⟨[], [⟨"Paris", "Lyon", 12, 7200, 400⟩], [⟨"Paris", "Lyon", 90, 16200, 460⟩]⟩

/-- Witness for c5_alternative_selector on twoModeStore: the train (7200 s)
beats the bus (16200 s), so the alternative is train + empty bus. -/
theorem c5_alternative_selector_witness :
    Scripts.alternative_step twoModeStore "Paris" "Lyon" =
      some (12 + 90, 12, 7200) :=
  ((c5_alternative_selector twoModeStore "Paris" "Lyon" 12 7200 90 16200
    rfl rfl).2 (by decide)).2 (by norm_num)

namespace Scen

/-- One row of the travel dataframe consumed by build_scenarios in
src/scripts/utils_scenarios.py: baseline columns and their alternative_
counterparts, as read by select_option. -/
structure TravelRow where
  visiting_team : String
  hosting_team : String
  transport_type : String
  emissions_kg_co2 : ℚ
  emissions_kg_co2_wo_empty_bus : ℚ
  travel_time_seconds : ℚ
  alternative_transport_type : String
  alternative_emissions_kg_co2 : ℚ
  alternative_emissions_kg_co2_wo_empty_bus : ℚ
  alternative_travel_time_seconds : ℚ
deriving DecidableEq

/-- One output dict appended by append_scenario. -/
structure ScenarioEntry where
  scenario : String
  visiting_team : String
  hosting_team : String
  transport_type : String
  emissions_kg_co2_from_transport : ℚ
  emissions_kg_co2_from_empty_bus : ℚ
  travel_time_seconds : ℚ
  alternative_selected : Bool
deriving DecidableEq

/-- select_option (src/scripts/utils_scenarios.py, lines 48-64): pick the
alternative_ columns when alternative_travel_time_seconds < threshold,
the baseline columns otherwise; returns
(emissions, emissions_wo_empty_bus, travel_time, transport_type,
use_alternative). -/
def select_option (row : TravelRow) (threshold_seconds : ℚ) :
    ℚ × ℚ × ℚ × String × Bool :=
  let use_alternative : Bool :=
    decide (row.alternative_travel_time_seconds < threshold_seconds)
  if use_alternative then
    (row.alternative_emissions_kg_co2,
     row.alternative_emissions_kg_co2_wo_empty_bus,
     row.alternative_travel_time_seconds,
     row.alternative_transport_type,
     use_alternative)
  else
    (row.emissions_kg_co2,
     row.emissions_kg_co2_wo_empty_bus,
     row.travel_time_seconds,
     row.transport_type,
     use_alternative)

/-- The first dict literal appended by append_scenario
(src/scripts/utils_scenarios.py, lines 22-33): the base scenario row, with
emissions_kg_co2_from_transport = emissions_kg_co2_wo_empty_bus and
emissions_kg_co2_from_empty_bus = emissions_kg_co2 −
emissions_kg_co2_wo_empty_bus. -/
def scenario_base_entry (scenario_base visiting_team hosting_team
    transport_type : String) (emissions_kg_co2 emissions_kg_co2_wo_empty_bus
    travel_time_seconds : ℚ) (alternative_selected : Bool) : ScenarioEntry :=
  { scenario := scenario_base,
    visiting_team := visiting_team,
    hosting_team := hosting_team,
    transport_type := transport_type,
    emissions_kg_co2_from_transport := emissions_kg_co2_wo_empty_bus,
    emissions_kg_co2_from_empty_bus :=
      emissions_kg_co2 - emissions_kg_co2_wo_empty_bus,
    travel_time_seconds := travel_time_seconds,
    alternative_selected := alternative_selected }

/-- The second dict literal appended by append_scenario (lines 34-45): the
primed variant, whose scenario name is the base name followed by a prime
mark and whose emissions_kg_co2_from_empty_bus is 0. -/
def scenario_primed_entry (scenario_base visiting_team hosting_team
    transport_type : String) (emissions_kg_co2 emissions_kg_co2_wo_empty_bus
    travel_time_seconds : ℚ) (alternative_selected : Bool) : ScenarioEntry :=
  { scenario := scenario_base ++ "\x27",
    visiting_team := visiting_team,
    hosting_team := hosting_team,
    transport_type := transport_type,
    emissions_kg_co2_from_transport := emissions_kg_co2_wo_empty_bus,
    emissions_kg_co2_from_empty_bus := 0,
    travel_time_seconds := travel_time_seconds,
    alternative_selected := alternative_selected }

/-- append_scenario (src/scripts/utils_scenarios.py, lines 9-45): appends
the base entry and then its primed variant to the entries list.  The unused
emissions_kg_co2 argument of the primed entry mirrors the source, where the
same arguments are in scope for both dict literals. -/
def append_scenario (entries : List ScenarioEntry)
    (scenario_base visiting_team hosting_team transport_type : String)
    (emissions_kg_co2 emissions_kg_co2_wo_empty_bus travel_time_seconds : ℚ)
    (alternative_selected : Bool) : List ScenarioEntry :=
  entries ++
    [scenario_base_entry scenario_base visiting_team hosting_team
       transport_type emissions_kg_co2 emissions_kg_co2_wo_empty_bus
       travel_time_seconds alternative_selected,
     scenario_primed_entry scenario_base visiting_team hosting_team
       transport_type emissions_kg_co2 emissions_kg_co2_wo_empty_bus
       travel_time_seconds alternative_selected]

/-- build_scenarios (src/scripts/utils_scenarios.py, lines 67-103): for each
row with visiting_team ≠ hosting_team and each (scenario, threshold) entry
of the limits mapping (in insertion order), select an option and append the
base and primed rows.  Self-pairs are skipped; no validation of the
thresholds is performed. -/
def build_scenarios (df : List TravelRow)
    (scenario_time_limits : List (String × ℚ)) : List ScenarioEntry :=
  df.foldl
    (fun entries row =>
      if row.visiting_team = row.hosting_team then entries
      else
        scenario_time_limits.foldl
          (fun es sc =>
            match select_option row sc.2 with
            | (emissions, emissions_wo_empty_bus, travel_time,
               transport_type, alt_sel) =>
              append_scenario es sc.1 row.visiting_team row.hosting_team
                transport_type emissions emissions_wo_empty_bus travel_time
                alt_sel)
          entries)
    []

/-- The two entries produced for one (row, scenario) combination inside
build_scenarios. -/
def pair_rows (row : TravelRow) (sc : String × ℚ) : List ScenarioEntry :=
  match select_option row sc.2 with
  | (emissions, emissions_wo_empty_bus, travel_time, transport_type,
     alt_sel) =>
    [scenario_base_entry sc.1 row.visiting_team row.hosting_team
       transport_type emissions emissions_wo_empty_bus travel_time alt_sel,
     scenario_primed_entry sc.1 row.visiting_team row.hosting_team
       transport_type emissions emissions_wo_empty_bus travel_time alt_sel]

/-- The inner foldl of build_scenarios only ever appends: it equals the
initial list followed by the per-scenario pairs. -/
theorem inner_foldl_eq (row : TravelRow) (limits : List (String × ℚ))
    (init : List ScenarioEntry) :
    limits.foldl
      (fun es sc =>
        match select_option row sc.2 with
        | (emissions, emissions_wo_empty_bus, travel_time, transport_type,
           alt_sel) =>
          append_scenario es sc.1 row.visiting_team row.hosting_team
            transport_type emissions emissions_wo_empty_bus travel_time
            alt_sel)
      init =
    init ++ limits.flatMap (pair_rows row) := by
  induction limits generalizing init with
  | nil => simp
  | cons sc rest ih =>
    rw [List.foldl_cons, ih, List.flatMap_cons]
    rcases hsel : select_option row sc.2 with ⟨em, emwo, t, tt, sel⟩
    simp only [hsel, pair_rows, append_scenario, List.append_assoc,
      List.cons_append, List.nil_append]

/-- build_scenarios is the concatenation, over the rows, of the per-row
scenario pairs (empty for self-pairs). -/
theorem build_scenarios_eq (df : List TravelRow)
    (limits : List (String × ℚ)) :
    build_scenarios df limits =
      df.flatMap (fun row =>
        if row.visiting_team = row.hosting_team then []
        else limits.flatMap (pair_rows row)) := by
  suffices h : ∀ init : List ScenarioEntry,
      df.foldl
        (fun entries row =>
          if row.visiting_team = row.hosting_team then entries
          else
            limits.foldl
              (fun es sc =>
                match select_option row sc.2 with
                | (emissions, emissions_wo_empty_bus, travel_time,
                   transport_type, alt_sel) =>
                  append_scenario es sc.1 row.visiting_team row.hosting_team
                    transport_type emissions emissions_wo_empty_bus
                    travel_time alt_sel)
              entries) init =
      init ++ df.flatMap (fun row =>
        if row.visiting_team = row.hosting_team then []
        else limits.flatMap (pair_rows row)) by
    simpa [build_scenarios] using h []
  induction df with
  | nil => simp
  | cons row rest ih =>
    intro init
    rw [List.foldl_cons, List.flatMap_cons]
    by_cases hrow : row.visiting_team = row.hosting_team
    · rw [if_pos hrow, if_pos hrow, ih init, List.nil_append]
    · rw [if_neg hrow, if_neg hrow, inner_foldl_eq,
        ih (init ++ limits.flatMap (pair_rows row)), List.append_assoc]

/-- Claim C8 (counterexample).  The two rows emitted by append_scenario for
one selection are not identical outside the empty-bus column: the primed
row's scenario field carries a prime suffix, so the sibling differs in the
scenario field as well. -/
theorem c8_counterexample :
    append_scenario [] "s" "v" "h" "bus" 10 4 100 true =
      [⟨"s", "v", "h", "bus", 4, 6, 100, true⟩,
       ⟨"s\x27", "v", "h", "bus", 4, 0, 100, true⟩] ∧
    ("s" : String) ≠ "s\x27" := by
  constructor
  · simp only [append_scenario, scenario_base_entry, scenario_primed_entry,
      List.nil_append, List.cons.injEq, ScenarioEntry.mk.injEq, and_true,
      true_and]
    norm_num
    all_goals decide
  · decide

/-- Claim C8 (amended).  For every scenario row emitted by append_scenario,
a primed sibling row is emitted that is identical except for two fields:
its scenario name is the base name with a prime suffix appended, and its
emissions_kg_co2_from_empty_bus is forced to 0. -/
theorem c8_primed_sibling (entries : List ScenarioEntry)
    (scenario_base visiting_team hosting_team transport_type : String)
    (emissions_kg_co2 emissions_kg_co2_wo_empty_bus travel_time_seconds : ℚ)
    (alternative_selected : Bool) :
    append_scenario entries scenario_base visiting_team hosting_team
        transport_type emissions_kg_co2 emissions_kg_co2_wo_empty_bus
        travel_time_seconds alternative_selected =
      entries ++
        [scenario_base_entry scenario_base visiting_team hosting_team
           transport_type emissions_kg_co2 emissions_kg_co2_wo_empty_bus
           travel_time_seconds alternative_selected,
         scenario_primed_entry scenario_base visiting_team hosting_team
           transport_type emissions_kg_co2 emissions_kg_co2_wo_empty_bus
           travel_time_seconds alternative_selected] ∧
    scenario_primed_entry scenario_base visiting_team hosting_team
        transport_type emissions_kg_co2 emissions_kg_co2_wo_empty_bus
        travel_time_seconds alternative_selected =
      { scenario_base_entry scenario_base visiting_team hosting_team
          transport_type emissions_kg_co2 emissions_kg_co2_wo_empty_bus
          travel_time_seconds alternative_selected with
        scenario := scenario_base ++ "\x27",
        emissions_kg_co2_from_empty_bus := 0 } :=
  ⟨rfl, rfl⟩

/-- A concrete travel row: plane baseline, train alternative taking
20000 seconds. -/
def sampleRow : TravelRow :=
  { visiting_team := "Paris",
    hosting_team := "Lyon",
    transport_type := "avion",
    emissions_kg_co2 := 100,
    emissions_kg_co2_wo_empty_bus := 60,
    travel_time_seconds := 5000,
    alternative_transport_type := "train",
    alternative_emissions_kg_co2 := 40,
    alternative_emissions_kg_co2_wo_empty_bus := 30,
    alternative_travel_time_seconds := 20000 }

/-- Claim C9 (counterexample).  A negative scenario threshold is not
rejected: build_scenarios happily generates two rows for it instead of
rejecting the configuration before any row generation. -/
theorem c9_counterexample :
    build_scenarios [sampleRow] [("no_plane_negative", -5)] ≠ [] ∧
    (build_scenarios [sampleRow] [("no_plane_negative", -5)]).length = 2 := by
  constructor <;> decide

/-- Claim C9 (amended).  build_scenarios performs no validation of the
threshold configuration: a negative threshold is accepted and scenario rows
are generated for it; with a nonnegative alternative travel time the
alternative is simply never selected, so the baseline columns are emitted. -/
theorem c9_no_threshold_validation (row : TravelRow) (name : String) (t : ℚ)
    (hneg : t < 0) (halt : 0 ≤ row.alternative_travel_time_seconds)
    (hpair : row.visiting_team ≠ row.hosting_team) :
    build_scenarios [row] [(name, t)] =
      [scenario_base_entry name row.visiting_team row.hosting_team
         row.transport_type row.emissions_kg_co2
         row.emissions_kg_co2_wo_empty_bus row.travel_time_seconds false,
       scenario_primed_entry name row.visiting_team row.hosting_team
         row.transport_type row.emissions_kg_co2
         row.emissions_kg_co2_wo_empty_bus row.travel_time_seconds false] ∧
    (build_scenarios [row] [(name, t)]).length = 2 := by
  have hlt : ¬(row.alternative_travel_time_seconds < t) :=
    not_lt.mpr (le_of_lt (lt_of_lt_of_le hneg halt))
  constructor
  · simp [build_scenarios, select_option, append_scenario, hpair, hlt]
  · simp [build_scenarios, select_option, append_scenario, hpair, hlt]

/-- Witness for c9_no_threshold_validation at sampleRow with the negative
threshold -5. -/
theorem c9_no_threshold_validation_witness :
    build_scenarios [sampleRow] [("no_plane_negative", -5)] =
      [scenario_base_entry "no_plane_negative" sampleRow.visiting_team
         sampleRow.hosting_team sampleRow.transport_type
         sampleRow.emissions_kg_co2 sampleRow.emissions_kg_co2_wo_empty_bus
         sampleRow.travel_time_seconds false,
       scenario_primed_entry "no_plane_negative" sampleRow.visiting_team
         sampleRow.hosting_team sampleRow.transport_type
         sampleRow.emissions_kg_co2 sampleRow.emissions_kg_co2_wo_empty_bus
         sampleRow.travel_time_seconds false] ∧
    (build_scenarios [sampleRow] [("no_plane_negative", -5)]).length = 2 :=
  c9_no_threshold_validation sampleRow "no_plane_negative" (-5)
    (by norm_num) (by norm_num [sampleRow]) (by decide)

/-- Claim C10 (confirmed).  Every row emitted by build_scenarios — base and
primed alike — carries in emissions_kg_co2_from_transport the selected
option's without-empty-bus emissions value (never the total); the empty-leg
portion (total minus without-empty-bus) sits only in
emissions_kg_co2_from_empty_bus (zeroed on primed rows), and on base rows
the total is recovered exactly as the sum of the two columns. -/
theorem c10_from_transport_is_wo_empty (df : List TravelRow)
    (limits : List (String × ℚ)) (e : ScenarioEntry)
    (he : e ∈ build_scenarios df limits) :
    ∃ row, row ∈ df ∧ ∃ sc, sc ∈ limits ∧
      (e.emissions_kg_co2_from_transport = (select_option row sc.2).2.1 ∧
       ((e.emissions_kg_co2_from_empty_bus =
           (select_option row sc.2).1 - (select_option row sc.2).2.1 ∧
         e.emissions_kg_co2_from_transport +
           e.emissions_kg_co2_from_empty_bus = (select_option row sc.2).1) ∨
        e.emissions_kg_co2_from_empty_bus = 0)) := by
  rw [build_scenarios_eq, List.mem_flatMap] at he
  obtain ⟨row, hrow, he⟩ := he
  refine ⟨row, hrow, ?_⟩
  by_cases hv : row.visiting_team = row.hosting_team
  · rw [if_pos hv] at he
    simp at he
  · rw [if_neg hv, List.mem_flatMap] at he
    obtain ⟨sc, hsc, he⟩ := he
    refine ⟨sc, hsc, ?_⟩
    rcases hsel : select_option row sc.2 with ⟨em, emwo, t, tt, sel⟩
    simp only [pair_rows, hsel, List.mem_cons, List.mem_singleton,
      List.not_mem_nil, or_false] at he
    rcases he with rfl | rfl
    · refine ⟨rfl, Or.inl ⟨rfl, ?_⟩⟩
      show emwo + (em - emwo) = em
      ring
    · exact ⟨rfl, Or.inr rfl⟩

/-- The concrete output of build_scenarios on sampleRow with the single
threshold ("s", 10): the alternative takes 20000 s ≥ 10 s, so the baseline
is selected. -/
theorem sample_build :
    build_scenarios [sampleRow] [("s", (10 : ℚ))] =
      [scenario_base_entry "s" "Paris" "Lyon" "avion" 100 60 5000 false,
       scenario_primed_entry "s" "Paris" "Lyon" "avion" 100 60 5000 false] := by
  simp [build_scenarios, select_option, append_scenario, sampleRow]
  norm_num

/-- Witness for c10_from_transport_is_wo_empty: the base entry generated
for sampleRow under threshold 10 is in the output, and its columns split
the total as claimed. -/
theorem c10_from_transport_is_wo_empty_witness :
    (scenario_base_entry "s" "Paris" "Lyon" "avion" 100 60 5000 false ∈
       build_scenarios [sampleRow] [("s", 10)]) ∧
    (∃ row, row ∈ [sampleRow] ∧ ∃ sc, sc ∈ [("s", (10 : ℚ))] ∧
      ((scenario_base_entry "s" "Paris" "Lyon" "avion" 100 60 5000
          false).emissions_kg_co2_from_transport =
         (select_option row sc.2).2.1 ∧
       (((scenario_base_entry "s" "Paris" "Lyon" "avion" 100 60 5000
            false).emissions_kg_co2_from_empty_bus =
           (select_option row sc.2).1 - (select_option row sc.2).2.1 ∧
         (scenario_base_entry "s" "Paris" "Lyon" "avion" 100 60 5000
            false).emissions_kg_co2_from_transport +
           (scenario_base_entry "s" "Paris" "Lyon" "avion" 100 60 5000
              false).emissions_kg_co2_from_empty_bus =
           (select_option row sc.2).1) ∨
        (scenario_base_entry "s" "Paris" "Lyon" "avion" 100 60 5000
           false).emissions_kg_co2_from_empty_bus = 0))) :=
  ⟨by rw [sample_build]; exact List.mem_cons_self _ _,
   c10_from_transport_is_wo_empty [sampleRow] [("s", 10)] _
     (by rw [sample_build]; exact List.mem_cons_self _ _)⟩

end Scen

namespace Backend

/-- NUMBER_OF_PASSENGERS from backend/global_variables.py. -/
def NUMBER_OF_PASSENGERS : ℚ := 70

/-- AUTO_CAR_EMISSION_FACTOR from backend/global_variables.py
(kgCO2 per passenger per km). -/
def AUTO_CAR_EMISSION_FACTOR : ℚ := 0.0744

/-- A value stored in a RouteData route_details mapping (the Python dicts
mix strings and numbers). -/
inductive DetailValue
  | str : String → DetailValue
  | num : ℚ → DetailValue
deriving DecidableEq

/-- RouteData from backend/services/base_transport_service.py: the
standardized record every calculator produces. -/
structure RouteData where
  departure : String
  arrival : String
  travel_time : ℚ
  distance : ℚ
  emissions : ℚ
  transport_type : String
  route_details : Option (List (String × DetailValue)) := none
deriving DecidableEq

/-- Embeds _format_coordinates from base_transport_service.py. -/
def format_coordinates (lat lon : ℚ) : String :=
  toString lat ++ "," ++ toString lon

namespace CarTrajetService

/-- CarTrajetService.calculate_route (backend/services/car_service.py,
lines 19-59).  The external _get_road_distance_duration lookup (a Google
Maps Directions call) is passed in as the function `road`, returning the
pair (distance_km, duration_seconds) with none components on failure,
exactly as the Python helper does.  When either component is missing the
method returns the zero-valued RouteData tagged "No car route found";
it never raises and always returns a record. -/
def calculate_route (road : String → String → Option ℚ × Option ℚ)
    (departure arrival : String) (departure_coords arrival_coords : ℚ × ℚ) :
    RouteData :=
  let origin_coords := format_coordinates departure_coords.1 departure_coords.2
  let destination_coords := format_coordinates arrival_coords.1 arrival_coords.2
  match road origin_coords destination_coords with
  | (some distance_km, some duration_seconds) =>
    let emissions :=
      AUTO_CAR_EMISSION_FACTOR * distance_km * NUMBER_OF_PASSENGERS * 2
    { departure := departure, arrival := arrival,
      travel_time := duration_seconds, distance := distance_km,
      emissions := emissions, transport_type := "car" }
  | _ =>
    { departure := departure, arrival := arrival, travel_time := 0,
      distance := 0, emissions := 0, transport_type := "car",
      route_details :=
        some [("car_route_details", DetailValue.str "No car route found")] }

end CarTrajetService

/-- Result of PlaneTrajetService.get_nearest_airport: either an airport
record (name, latitude, longitude) or a dict carrying an "error" key. -/
inductive AirportLookup
  | found : String → ℚ → ℚ → AirportLookup
  | err : String → AirportLookup
deriving DecidableEq

namespace PlaneTrajetService

/-- jet_fuel_to_co2 (kgCO2 per kg of jet fuel). -/
def jet_fuel_to_co2 : ℚ := 3.15

/-- fuel_consumption_coef (kg/km, ERJ145 regression). -/
def fuel_consumption_coef : ℚ := 1.2174

/-- fuel_consumption_intercept (kg). -/
def fuel_consumption_intercept : ℚ := 282.8615

/-- time_plane_coef (h/km). -/
def time_plane_coef : ℚ := 0.285387849787546

/-- time_plane_intercept (h). -/
def time_plane_intercept : ℚ := 0.00120352141554664

/-- Python int() applied to a float: truncation toward zero. -/
def pyInt (q : ℚ) : ℤ :=
  if 0 ≤ q then ⌊q⌋ else ⌈q⌉

/-- calculate_fuel_consumption (plane_service.py, lines 125-127). -/
def calculate_fuel_consumption (distance : ℚ) : ℚ :=
  fuel_consumption_coef * distance + fuel_consumption_intercept

/-- calculate_flight_time (plane_service.py, lines 129-134):
time_in_hours = coef·distance + intercept; hours = int(time_in_hours);
minutes = (time_in_hours − hours)·60; return
int(hours·3600 + minutes·60).  The final int() truncates the summed
seconds; the fractional minutes are not truncated beforehand. -/
def calculate_flight_time (distance : ℚ) : ℤ :=
  let time_in_hours := time_plane_coef * distance + time_plane_intercept
  let hours : ℤ := pyInt time_in_hours
  let minutes : ℚ := (time_in_hours - (hours : ℚ)) * 60
  pyInt ((hours : ℚ) * 3600 + minutes * 60)

/-- PlaneTrajetService.calculate_route (plane_service.py, lines 137-215).
External capabilities are parameters: nearest_airport (Google Places via
get_nearest_airport, returning an error marker on failure), calc_distance
(the haversine great-circle helper calculate_distance, a transcendental
float computation), and road (the Directions lookup
_get_road_distance_duration).  When either nearest-airport lookup carries
an error, the method returns None — no RouteData at all.  Failed road
lookups for the two stadium-airport transfers are replaced by 0 with a
note appended to added_details. -/
def calculate_route (nearest_airport : ℚ → ℚ → AirportLookup)
    (calc_distance : ℚ → ℚ → ℚ → ℚ → ℚ)
    (road : String → String → Option ℚ × Option ℚ)
    (departure arrival : String) (departure_coords arrival_coords : ℚ × ℚ) :
    Option RouteData :=
  match nearest_airport departure_coords.1 departure_coords.2,
        nearest_airport arrival_coords.1 arrival_coords.2 with
  | AirportLookup.found _ dep_lat dep_lon,
    AirportLookup.found _ arr_lat arr_lon =>
    let flight_distance := calc_distance dep_lat dep_lon arr_lat arr_lon
    let flight_time := calculate_flight_time flight_distance
    let road_dep :=
      road (format_coordinates departure_coords.1 departure_coords.2)
        (format_coordinates dep_lat dep_lon)
    let road_arr :=
      road (format_coordinates arr_lat arr_lon)
        (format_coordinates arrival_coords.1 arrival_coords.2)
    let distance_autocar_dep := road_dep.1.getD 0
    let time_autocar_dep := road_dep.2.getD 0
    let distance_autocar_arr := road_arr.1.getD 0
    let time_autocar_arr := road_arr.2.getD 0
    let added_details :=
      (if distance_autocar_dep = 0 then "No autocar departure route found"
       else "") ++
      (if distance_autocar_arr = 0 then "No autocar arrival route found"
       else "")
    let total_distance :=
      flight_distance + distance_autocar_dep + distance_autocar_arr
    let total_time := (flight_time : ℚ) + time_autocar_dep + time_autocar_arr
    let fuel_consumption := calculate_fuel_consumption flight_distance
    let plane_emission := jet_fuel_to_co2 * fuel_consumption
    let autocar_emission := AUTO_CAR_EMISSION_FACTOR * NUMBER_OF_PASSENGERS *
      (distance_autocar_dep + distance_autocar_arr)
    let total_emissions := (plane_emission + autocar_emission) * 2
    some
      { departure := departure, arrival := arrival,
        travel_time := total_time, distance := total_distance,
        emissions := total_emissions, transport_type := "plane",
        route_details := some
          [("flight_distance", DetailValue.num flight_distance),
           ("flight_time", DetailValue.num (flight_time : ℚ)),
           ("autocar_distance",
             DetailValue.num (distance_autocar_dep + distance_autocar_arr)),
           ("autocar_time",
             DetailValue.num (time_autocar_dep + time_autocar_arr)),
           ("fuel_consumption", DetailValue.num fuel_consumption),
           ("plane_emission", DetailValue.num plane_emission),
           ("autocar_emission", DetailValue.num autocar_emission),
           ("added_details", DetailValue.str added_details)] }
  | _, _ => none

end PlaneTrajetService

end Backend

/-- Evaluation rule for pyInt on nonnegative rationals: if n ≤ q < n + 1
with 0 ≤ q, then pyInt q = n. -/
theorem pyInt_eq (q : ℚ) (n : ℤ) (h0 : 0 ≤ q) (h1 : (n : ℚ) ≤ q)
    (h2 : q < n + 1) : Backend.PlaneTrajetService.pyInt q = n := by
  rw [Backend.PlaneTrajetService.pyInt, if_pos h0]
  rw [Int.floor_eq_iff]
  exact ⟨h1, by exact_mod_cast h2⟩

/-- calculate_flight_time written with its let-bindings substituted. -/
theorem flight_time_formula (d : ℚ) :
    Backend.PlaneTrajetService.calculate_flight_time d =
      Backend.PlaneTrajetService.pyInt
        ((Backend.PlaneTrajetService.pyInt
            (Backend.PlaneTrajetService.time_plane_coef * d +
              Backend.PlaneTrajetService.time_plane_intercept) : ℚ) * 3600 +
          ((Backend.PlaneTrajetService.time_plane_coef * d +
              Backend.PlaneTrajetService.time_plane_intercept -
            (Backend.PlaneTrajetService.pyInt
              (Backend.PlaneTrajetService.time_plane_coef * d +
                Backend.PlaneTrajetService.time_plane_intercept) : ℚ)) * 60) *
            60) := rfl

/-- The concrete distance whose linear flight-time estimate is exactly
0.8854 hours under the coefficients of plane_service.py. -/
def flightTimeProbe : ℚ :=
  (0.8854 - Backend.PlaneTrajetService.time_plane_intercept) /
    Backend.PlaneTrajetService.time_plane_coef

/-- Claim C2 (counterexample).  At the concrete input flightTimeProbe the
linear estimate is exactly 0.8854 hours, yet calculate_flight_time returns
3187 seconds, not the 3180 seconds the claim asserts: the truncation to an
integer happens on the summed seconds int(hours·3600 + minutes·60), not on
the minutes. -/
theorem c2_counterexample :
    Backend.PlaneTrajetService.time_plane_coef * flightTimeProbe +
        Backend.PlaneTrajetService.time_plane_intercept = 0.8854 ∧
    Backend.PlaneTrajetService.calculate_flight_time flightTimeProbe = 3187 ∧
    (3187 : ℤ) ≠ 3180 := by
  have hlin : Backend.PlaneTrajetService.time_plane_coef * flightTimeProbe +
      Backend.PlaneTrajetService.time_plane_intercept = 0.8854 := by
    rw [flightTimeProbe]
    rw [Backend.PlaneTrajetService.time_plane_coef,
      Backend.PlaneTrajetService.time_plane_intercept]
    norm_num
  refine ⟨hlin, ?_, by decide⟩
  rw [flight_time_formula, hlin]
  have hp : Backend.PlaneTrajetService.pyInt (0.8854 : ℚ) = 0 := by
    apply pyInt_eq <;> norm_num
  rw [hp]
  apply pyInt_eq <;> norm_num

/-- Claim C2 (amended).  calculate_flight_time computes
time_in_hours = coef·distance + intercept, hours = int(time_in_hours),
minutes = (time_in_hours − hours)·60, and returns
int(hours·3600 + minutes·60): the truncation to whole seconds applies to
the summed seconds, not to the minutes; in particular every input whose
linear estimate is 0.8854 hours yields 3187 seconds (0·3600 +
⌊53.124·60⌋ = ⌊3187.44⌋). -/
theorem c2_flight_time_truncates_total_seconds (d : ℚ)
    (h : Backend.PlaneTrajetService.time_plane_coef * d +
      Backend.PlaneTrajetService.time_plane_intercept = 0.8854) :
    Backend.PlaneTrajetService.calculate_flight_time d = 3187 := by
  rw [flight_time_formula, h]
  have hp : Backend.PlaneTrajetService.pyInt (0.8854 : ℚ) = 0 := by
    apply pyInt_eq <;> norm_num
  rw [hp]
  apply pyInt_eq <;> norm_num

/-- Witness for c2_flight_time_truncates_total_seconds at flightTimeProbe. -/
theorem c2_flight_time_truncates_total_seconds_witness :
    Backend.PlaneTrajetService.time_plane_coef * flightTimeProbe +
        Backend.PlaneTrajetService.time_plane_intercept = 0.8854 ∧
    Backend.PlaneTrajetService.calculate_flight_time flightTimeProbe = 3187 := by
  have hlin : Backend.PlaneTrajetService.time_plane_coef * flightTimeProbe +
      Backend.PlaneTrajetService.time_plane_intercept = 0.8854 := by
    rw [flightTimeProbe, Backend.PlaneTrajetService.time_plane_coef,
      Backend.PlaneTrajetService.time_plane_intercept]
    norm_num
  exact ⟨hlin, c2_flight_time_truncates_total_seconds flightTimeProbe hlin⟩

/-- Claim C4 (counterexample).  When the nearest-airport lookup fails on
both ends, PlaneTrajetService.calculate_route returns None — no RouteData
record at all — contradicting the claim that every mode calculator returns
a zero-valued RouteData on external lookup failure. -/
theorem c4_counterexample :
    Backend.PlaneTrajetService.calculate_route
        (fun _ _ => Backend.AirportLookup.err "Request failed")
        (fun _ _ _ _ => 0) (fun _ _ => (none, none))
        "Paris" "Lyon" (0, 0) (1, 1) = none ∧
    (none : Option Backend.RouteData) ≠
      some { departure := "Paris", arrival := "Lyon", travel_time := 0,
             distance := 0, emissions := 0, transport_type := "plane" } := by
  exact ⟨rfl, by simp⟩

/-- Claim C4 (amended).  On external lookup failure the Car calculator
returns a zero-emission, zero-time, zero-distance RouteData whose details
note the failure — it never raises and never drops the record; but the
Plane calculator returns None (no record) whenever the nearest-airport
lookup fails on either end; only its two road-transfer lookups are
zero-tolerated with a note in the details. -/
theorem c4_lookup_failure_handling :
    (∀ (road : String → String → Option ℚ × Option ℚ)
       (departure arrival : String) (dc ac : ℚ × ℚ),
      (road (Backend.format_coordinates dc.1 dc.2)
          (Backend.format_coordinates ac.1 ac.2)).1 = none ∨
      (road (Backend.format_coordinates dc.1 dc.2)
          (Backend.format_coordinates ac.1 ac.2)).2 = none →
      Backend.CarTrajetService.calculate_route road departure arrival dc ac =
        { departure := departure, arrival := arrival, travel_time := 0,
          distance := 0, emissions := 0, transport_type := "car",
          route_details := some [("car_route_details",
            Backend.DetailValue.str "No car route found")] }) ∧
    (∀ (na : ℚ → ℚ → Backend.AirportLookup)
       (cd : ℚ → ℚ → ℚ → ℚ → ℚ)
       (road : String → String → Option ℚ × Option ℚ)
       (departure arrival : String) (dc ac : ℚ × ℚ) (msg : String),
      na dc.1 dc.2 = Backend.AirportLookup.err msg ∨
      na ac.1 ac.2 = Backend.AirportLookup.err msg →
      Backend.PlaneTrajetService.calculate_route na cd road departure arrival
        dc ac = none) := by
  constructor
  · intro road departure arrival dc ac h
    rcases hrd : road (Backend.format_coordinates dc.1 dc.2)
        (Backend.format_coordinates ac.1 ac.2) with ⟨dkm, dsec⟩
    rw [hrd] at h
    simp at h
    simp only [Backend.CarTrajetService.calculate_route, hrd]
    rcases h with rfl | rfl
    · rfl
    · cases dkm <;> rfl
  · intro na cd road departure arrival dc ac msg h
    rcases h with h | h
    · rcases h2 : na ac.1 ac.2 with _ | m2 <;>
        simp [Backend.PlaneTrajetService.calculate_route, h, h2]
    · rcases h1 : na dc.1 dc.2 with _ | m1 <;>
        simp [Backend.PlaneTrajetService.calculate_route, h1, h]

/-- Witness for c4_lookup_failure_handling: a road lookup that always
fails makes the Car calculator return the tagged zero record, and an
airport lookup that always errs makes the Plane calculator return None. -/
theorem c4_lookup_failure_handling_witness :
    Backend.CarTrajetService.calculate_route (fun _ _ => (none, none))
        "Paris" "Lyon" (0, 0) (1, 1) =
      { departure := "Paris", arrival := "Lyon", travel_time := 0,
        distance := 0, emissions := 0, transport_type := "car",
        route_details := some [("car_route_details",
          Backend.DetailValue.str "No car route found")] } ∧
    Backend.PlaneTrajetService.calculate_route
        (fun _ _ => Backend.AirportLookup.err "No results")
        (fun _ _ _ _ => 0) (fun _ _ => (none, none))
        "Paris" "Lyon" (0, 0) (1, 1) = none :=
  ⟨c4_lookup_failure_handling.1 (fun _ _ => (none, none)) "Paris" "Lyon"
     (0, 0) (1, 1) (Or.inl rfl),
   c4_lookup_failure_handling.2
     (fun _ _ => Backend.AirportLookup.err "No results")
     (fun _ _ _ _ => 0) (fun _ _ => (none, none)) "Paris" "Lyon"
     (0, 0) (1, 1) "No results" (Or.inl rfl)⟩

namespace Train

/-- One section of an SNCF journey as consumed by
TrainTrajetService._trip_stats (backend/services/train_service.py):
type ("public_transport", "crow_fly", "boarding", "transfer", "waiting" or
other), the display_informations physical_mode tag, the duration (s), the
geojson first-property length (m), the co2_emission value (g), the from/to
names, and the geojson polyline endpoints coordinates[0] and
coordinates[-1] (stored as (lon, lat), SNCF convention). -/
structure TransitSection where
  type : String
  physical_mode : Option String
  duration : ℚ
  length_m : ℚ
  co2_g : ℚ
  from_name : String
  to_name : String
  coord_first : ℚ × ℚ
  coord_last : ℚ × ℚ
deriving DecidableEq

/-- One per-section detail dict of the _trip_stats output. -/
structure SegmentDetail where
  from_name : String
  to_name : String
  type : String
  distance_km : ℚ
  co2_kg : ℚ
  time_s : ℚ
deriving DecidableEq

/-- The physical_mode tag that triggers grouping. -/
def rerTag : String := "RER / Transilien"

/-- The first pass of _trip_stats (lines 83-98): crow_fly sections are
discarded, public_transport (and unknown, defensively) sections are kept
as correctable sections, boarding/transfer/waiting only feed the waiting
time. -/
def keeps_section (s : TransitSection) : Bool :=
  match s.type with
  | "crow_fly" => false
  | "public_transport" => true
  | "boarding" => false
  | "transfer" => false
  | "waiting" => false
  | _ => true

/-- The duration a section contributes to waiting_time (lines 90-95). -/
def waiting_contribution (s : TransitSection) : ℚ :=
  match s.type with
  | "boarding" => s.duration
  | "transfer" => s.duration
  | "waiting" => s.duration
  | _ => 0

/-- corrected_sections after the first pass. -/
def corrected_sections (sections : List TransitSection) :
    List TransitSection :=
  sections.filter keeps_section

/-- Total waiting time accumulated during the first pass. -/
def waiting_time (sections : List TransitSection) : ℚ :=
  (sections.map waiting_contribution).sum

/-- The while loop of _trip_stats (lines 100-221) over the corrected
sections, returning some (total_time, total_dist, total_co2, details), or
none for the exception the source raises.  When the loop reaches a
section whose physical_mode is "RER / Transilien" it enters the grouping
branch (lines 105-188) and crashes on the code in src/, whichever value
compute_using_google has: car_service.calculate_route is called with a
round_trip keyword argument it does not accept (TypeError,
train_service.py line 148 against car_service.py line 19), the
approximation branch calls the nonexistent car_service.calculate_emissions
(AttributeError, train_service.py line 160), and the replacement
RouteData is constructed and read with field names travel_time_seconds /
distance_km / emissions_kg_co2 that the dataclass of
base_transport_service.py does not have (train_service.py lines 163-174).
The raise is modelled by none.  Every other section contributes its
duration, length/1000 km and co2/1000 kg, and is listed in the details
only when its distance is positive. -/
def process :
    List TransitSection → Option (ℚ × ℚ × ℚ × List SegmentDetail)
  | [] => some (0, 0, 0, [])
  | sec :: rest =>
    if sec.physical_mode = some rerTag then
      none
    else
      let sec_dist := sec.length_m / 1000
      let sec_co2 := sec.co2_g / 1000
      match process rest with
      | none => none
      | some r =>
        some (sec.duration + r.1,
          sec_dist + r.2.1,
          sec_co2 + r.2.2.1,
          if sec_dist > 0 then
            { from_name := sec.from_name, to_name := sec.to_name,
              type := sec.type, distance_km := sec_dist, co2_kg := sec_co2,
              time_s := sec.duration } :: r.2.2.2
          else r.2.2.2)

/-- The aggregate returned by _trip_stats. -/
structure TripStats where
  carbon_emission_kgCO2 : ℚ
  distance_km : ℚ
  duration_s : ℚ
  details : List SegmentDetail
deriving DecidableEq

/-- Embeds _trip_stats (train_service.py, lines 66-228): first pass, the
processing loop, and total duration = processed time + waiting time; none
when the loop raises, which happens whenever a RER / Transilien section
survives the first pass. -/
def trip_stats (sections : List TransitSection) : Option TripStats :=
  let cs := corrected_sections sections
  match process cs with
  | none => none
  | some r =>
    some { carbon_emission_kgCO2 := r.2.2.1,
           distance_km := r.2.1,
           duration_s := r.1 + waiting_time sections,
           details := r.2.2.2 }

end Train

/-- Claim C6 (code_bug).  The docstring of _trip_stats itself promises
that consecutive RER/Transilien sections are grouped and replaced with
car routes, exactly as the claim states, but the replacement branch
crashes on the code in src/ (calculate_route called with a nonexistent
round_trip keyword, a call to the nonexistent
car_service.calculate_emissions, and RouteData built and read with field
names the dataclass lacks): on the claim's input
[RER(A→B), RER(B→C), TGV(C→D, 200 km)] the aggregator raises (none)
instead of emitting the merged two-segment output, while the same TGV
leg alone is aggregated normally. -/
theorem c6_rer_branch_raises (pA pB pB2 pC pC2 pD : ℚ × ℚ)
    (d1 d2 d3 l1 l2 c1 c2 c3 : ℚ) :
    Train.trip_stats
      [{ type := "public_transport", physical_mode := some "RER / Transilien",
         duration := d1, length_m := l1, co2_g := c1, from_name := "A",
         to_name := "B", coord_first := pA, coord_last := pB },
       { type := "public_transport", physical_mode := some "RER / Transilien",
         duration := d2, length_m := l2, co2_g := c2, from_name := "B",
         to_name := "C", coord_first := pB2, coord_last := pC },
       { type := "public_transport", physical_mode := some "HIGH_SPEED_TRAIN",
         duration := d3, length_m := 200000, co2_g := c3, from_name := "C",
         to_name := "D", coord_first := pC2, coord_last := pD }] = none ∧
    Train.trip_stats
      [{ type := "public_transport", physical_mode := some "HIGH_SPEED_TRAIN",
         duration := d3, length_m := 200000, co2_g := c3, from_name := "C",
         to_name := "D", coord_first := pC2, coord_last := pD }] =
      some { carbon_emission_kgCO2 := c3 / 1000, distance_km := 200,
             duration_s := d3,
             details := [{ from_name := "C", to_name := "D",
                           type := "public_transport", distance_km := 200,
                           co2_kg := c3 / 1000, time_s := d3 }] } := by
  constructor
  · simp [Train.trip_stats, Train.corrected_sections, Train.keeps_section,
      Train.process, Train.rerTag]
  · simp [Train.trip_stats, Train.corrected_sections, Train.keeps_section,
      Train.waiting_time, Train.waiting_contribution, Train.process,
      Train.rerTag]
    norm_num

namespace Full

/-- The (emissions, emissions_wo_empty_bus, time, distance) quadruple
appended — aller and retour rows alike — for one scenario choice in the
alternative loop of src/Calculate_emissions.py. -/
structure AltOption where
  emissions : ℚ
  emissions_wo_bus : ℚ
  time : ℚ
  distance : ℚ
deriving DecidableEq

/-- time_scenario2 = 3 (hours), src/Calculate_emissions.py line 163. -/
def time_scenario2 : ℚ := 3

/-- time_scenario3 = 6 (hours), src/Calculate_emissions.py line 170. -/
def time_scenario3 : ℚ := 6

/-- The bus choice appended by the alternative loop:
(emission_bus/2, emission_bus/2, time_bus/2, distance_bus/2). -/
def bus_option (emission_bus time_bus distance_bus : ℚ) : AltOption :=
  { emissions := emission_bus / 2,
    emissions_wo_bus := emission_bus / 2,
    time := time_bus / 2,
    distance := distance_bus / 2 }

/-- The train-plus-empty-bus choice appended by the alternative loop:
((emission_train + emission_bus)/2, emission_train/2, time_train/2,
distance_train/2). -/
def train_w_bus_option (emission_train emission_bus time_train
    distance_train : ℚ) : AltOption :=
  { emissions := (emission_train + emission_bus) / 2,
    emissions_wo_bus := emission_train / 2,
    time := time_train / 2,
    distance := distance_train / 2 }

/-- The plane choice appended by the capped scenarios:
((emission_plane + emission_bus)/2, emission_plane/2, time_plane/2,
distance_plane/2). -/
def plane_option (emission_plane emission_bus time_plane
    distance_plane : ℚ) : AltOption :=
  { emissions := (emission_plane + emission_bus) / 2,
    emissions_wo_bus := emission_plane / 2,
    time := time_plane / 2,
    distance := distance_plane / 2 }

/-- The per-pair scenario computation of the alternative loop of main in
src/Calculate_emissions.py (lines 181-327), for a pair with
visiting ≠ hosting and already-resolved plane/train/bus values: returns
(no-plane alternative, scenario2 choice, scenario3 choice), mirroring the
nested if / elif / else structure of the source. -/
def scenario_alternatives (emission_plane time_plane distance_plane
    emission_train time_train distance_train
    emission_bus time_bus distance_bus : ℚ) :
    AltOption × AltOption × AltOption :=
  if time_bus < time_train then
    if time_bus - 2*3600*time_scenario2 < time_plane then
      (bus_option emission_bus time_bus distance_bus,
       bus_option emission_bus time_bus distance_bus,
       bus_option emission_bus time_bus distance_bus)
    else if time_bus - 2*3600*time_scenario3 < time_plane then
      (bus_option emission_bus time_bus distance_bus,
       plane_option emission_plane emission_bus time_plane distance_plane,
       bus_option emission_bus time_bus distance_bus)
    else
      (bus_option emission_bus time_bus distance_bus,
       plane_option emission_plane emission_bus time_plane distance_plane,
       plane_option emission_plane emission_bus time_plane distance_plane)
  else
    if time_train - 2*3600*time_scenario2 < time_plane then
      (train_w_bus_option emission_train emission_bus time_train
         distance_train,
       train_w_bus_option emission_train emission_bus time_train
         distance_train,
       train_w_bus_option emission_train emission_bus time_train
         distance_train)
    else if time_train - 2*3600*time_scenario3 < time_plane then
      (train_w_bus_option emission_train emission_bus time_train
         distance_train,
       plane_option emission_plane emission_bus time_plane distance_plane,
       train_w_bus_option emission_train emission_bus time_train
         distance_train)
    else
      (train_w_bus_option emission_train emission_bus time_train
         distance_train,
       plane_option emission_plane emission_bus time_plane distance_plane,
       plane_option emission_plane emission_bus time_plane distance_plane)

end Full

/-- Claim C3 (counterexample).  At a tie — time_bus − 2·3·3600 exactly
equal to time_plane — the strict < of the source fails and the 3-hour
capped scenario takes the plane option, not the ground alternative the
claim promises: with plane (100 kg, 3600 s), train (50 kg, 30000 s), bus
(10 kg, 25200 s), scenario2 returns the plane option, which differs from
the bus alternative. -/
theorem c3_counterexample :
    (Full.scenario_alternatives 100 3600 400 50 30000 300 10 25200 280).2.1 =
      Full.plane_option 100 10 3600 400 ∧
    (25200 : ℚ) - 2*3600*Full.time_scenario2 = 3600 ∧
    Full.plane_option 100 10 3600 400 ≠ Full.bus_option 10 25200 280 := by
  refine ⟨?_, by norm_num [Full.time_scenario2], ?_⟩
  · norm_num [Full.scenario_alternatives, Full.time_scenario2,
      Full.time_scenario3]
  · simp only [Full.plane_option, Full.bus_option, ne_eq,
      Full.AltOption.mk.injEq, not_and]
    intro h
    norm_num at h

/-- Claim C3 (amended).  For every pair with visiting ≠ hosting and both
capped scenarios, the ground alternative (bus if time_bus < time_train,
else train + empty bus) is preferred over flying exactly when
alternative_duration − 2·threshold_hours·3600 < plane_duration, with
strict comparison: at a tie the plane option is chosen, not the ground
alternative. -/
theorem c3_capped_scenarios (emission_plane time_plane distance_plane
    emission_train time_train distance_train
    emission_bus time_bus distance_bus : ℚ) :
    Full.scenario_alternatives emission_plane time_plane distance_plane
        emission_train time_train distance_train
        emission_bus time_bus distance_bus =
      ((if time_bus < time_train then
          Full.bus_option emission_bus time_bus distance_bus
        else
          Full.train_w_bus_option emission_train emission_bus time_train
            distance_train),
       (if (if time_bus < time_train then time_bus else time_train) -
            2*3600*Full.time_scenario2 < time_plane then
          (if time_bus < time_train then
            Full.bus_option emission_bus time_bus distance_bus
          else
            Full.train_w_bus_option emission_train emission_bus time_train
              distance_train)
        else
          Full.plane_option emission_plane emission_bus time_plane
            distance_plane),
       (if (if time_bus < time_train then time_bus else time_train) -
            2*3600*Full.time_scenario3 < time_plane then
          (if time_bus < time_train then
            Full.bus_option emission_bus time_bus distance_bus
          else
            Full.train_w_bus_option emission_train emission_bus time_train
              distance_train)
        else
          Full.plane_option emission_plane emission_bus time_plane
            distance_plane)) := by
  unfold Full.scenario_alternatives
  by_cases h1 : time_bus < time_train
  · simp only [if_pos h1]
    by_cases h2 : time_bus - 2*3600*Full.time_scenario2 < time_plane
    · have h3 : time_bus - 2*3600*Full.time_scenario3 < time_plane := by
        rw [Full.time_scenario2] at h2
        rw [Full.time_scenario3]
        linarith
      simp only [if_pos h2, if_pos h3]
    · by_cases h3 : time_bus - 2*3600*Full.time_scenario3 < time_plane
      · simp only [if_neg h2, if_pos h3]
      · simp only [if_neg h2, if_neg h3]
  · simp only [if_neg h1]
    by_cases h2 : time_train - 2*3600*Full.time_scenario2 < time_plane
    · have h3 : time_train - 2*3600*Full.time_scenario3 < time_plane := by
        rw [Full.time_scenario2] at h2
        rw [Full.time_scenario3]
        linarith
      simp only [if_pos h2, if_pos h3]
    · by_cases h3 : time_train - 2*3600*Full.time_scenario3 < time_plane
      · simp only [if_neg h2, if_pos h3]
      · simp only [if_neg h2, if_neg h3]
